import Mathlib

/-!
Shallow embedding of the polling / reconciliation engine of the
GitHub Notifications Redux GNOME Shell extension (main module
`extension.js`).

The extension keeps its mutable instance state on one object; we model the
fields the engine reads and writes as an explicit record `ExtState`, and each
method as a state transformer.  Asynchronous HTTP calls are split at their
single `await` point: the synchronous prefix of `_fetchNotifications` is
`fetchStart`, and the continuation that runs when the awaited response lands
(or the promise rejects) is `fetchResponse`, parameterised by the outcome.
GLib timeout sources are modelled by a fresh-id supply (`nextTimerId`), the
list of currently attached source ids (`liveTimers`), and the stored handle
(`timeoutId`).  Observable events are accumulated in logs: delays passed to
`_scheduleFetch` (`scheduledDelays`) and emitted desktop alerts (`alerts`).
-/

namespace GithubNotifications

/-- A GitHub notification object, restricted to the fields the extension
reads: the opaque thread `id`, the optional `subject.url`, the optional
`subject.type` and the optional `repository.full_name`.  `none` models a
missing (`undefined`/`null`) field. -/
structure Notif where
  id : String
  subjectUrl : Option String := none
  subjectType : Option String := none
  repoFullName : Option String := none
deriving DecidableEq

/-- JavaScript truthiness of an optional string field: `undefined`, `null`
and the empty string are falsy, every other string is truthy. -/
def jsTruthy : Option String → Bool
  | none => false
  | some s => !(s == "")

/-- `RETRY_INTERVALS` from `extension.js`: the back-off schedule (in
seconds) used when consecutive fetch attempts fail. -/
def RETRY_INTERVALS : List Nat := [60, 120, 240, 480, 960, 1920, 3600]

/-- `_getEffectiveInterval` as a pure function of the instance fields it
reads (`_retryAttempts`, `_refreshInterval`, `_githubInterval`).  The
source indexes `RETRY_INTERVALS[Math.min(attempts - 1, length - 1)]`; the
clamped index is always in range, so `getD`'s default is never used. -/
def getEffectiveIntervalFn (retryAttempts refreshInterval githubInterval : Nat) : Nat :=
  let interval :=
    if retryAttempts > 0 then
      RETRY_INTERVALS.getD (min (retryAttempts - 1) (RETRY_INTERVALS.length - 1)) 0
    else
      refreshInterval
  max interval githubInterval

/-- The mutable instance state of the extension that the polling engine
touches, plus observation logs.

* `label` — the text of the panel count label; `none` once the widget has
  been destroyed by `disable` (`this._label = null`), matching the
  optional-chaining writes `this._label?.set_text(...)`.
* `timeoutId` — `this._timeoutId` (GLib source ids are positive, so the
  JavaScript null-check is exactly the `Option` case split).
* `liveTimers` — ids of GLib timeout sources currently attached to the
  main loop (not a field of the object; it models GLib itself).
* `scheduledDelays` — log of the `delaySecs` arguments passed to
  `_scheduleFetch`, oldest first.
* `alerts` — log of desktop alerts as (count, body text) pairs. -/
structure ExtState where
  notifications : List Notif
  retryAttempts : Nat
  githubInterval : Nat
  refreshInterval : Nat
  showAlert : Bool
  token : String
  httpSession : Bool
  label : Option String
  timeoutId : Option Nat
  liveTimers : List Nat
  nextTimerId : Nat
  scheduledDelays : List Nat
  alerts : List (Nat × String)
deriving DecidableEq

/-- `_getEffectiveInterval` on a state. -/
def getEffectiveInterval (s : ExtState) : Nat :=
  getEffectiveIntervalFn s.retryAttempts s.refreshInterval s.githubInterval

/-- `this._label?.set_text(t)`: updates the label text when the widget
exists, no-op after it has been destroyed. -/
def setLabel (t : String) (s : ExtState) : ExtState :=
  { s with label := s.label.map (fun _ => t) }

/-- `_stopLoop`: if a timeout is pending, `GLib.Source.remove` it and null
the stored handle. -/
def stopLoop (s : ExtState) : ExtState :=
  { s with
    timeoutId := none
    liveTimers :=
      match s.timeoutId with
      | some id => s.liveTimers.erase id
      | none => s.liveTimers }

/-- `_scheduleFetch(delaySecs, isRetry)`: bump or reset the back-off
counter, cancel any pending timeout, then arm a fresh
`GLib.timeout_add_seconds` source and store its id. -/
def scheduleFetch (delaySecs : Nat) (isRetry : Bool) (s : ExtState) : ExtState :=
  let s1 := { s with retryAttempts := if isRetry then s.retryAttempts + 1 else 0 }
  let s2 := stopLoop s1
  { s2 with
    timeoutId := some s2.nextTimerId
    liveTimers := s2.nextTimerId :: s2.liveTimers
    nextTimerId := s2.nextTimerId + 1
    scheduledDelays := s2.scheduledDelays ++ [delaySecs] }

/-- Body text built by `_sendDesktopNotification`. -/
def notificationBody (count : Nat) : String :=
  if count = 1 then "You have 1 unread notification"
  else "You have " ++ toString count ++ " unread notifications"

/-- `_sendDesktopNotification(count)`: emits exactly one desktop alert
carrying the count and its phrased body. -/
def sendDesktopNotification (count : Nat) (s : ExtState) : ExtState :=
  { s with alerts := s.alerts ++ [(count, notificationBody count)] }

/-- `_updateNotifications(data)`: records the previous length, replaces the
cached list wholesale, updates the count label, and sends a desktop alert
when the count grew and alerts are enabled. -/
def updateNotifications (data : List Notif) (s : ExtState) : ExtState :=
  let previousCount := s.notifications.length
  let s1 := setLabel (toString data.length) { s with notifications := data }
  if previousCount < data.length ∧ s.showAlert = true then
    sendDesktopNotification data.length s1
  else
    s1

/-- Shape of a 200 response body as seen after decoding and `JSON.parse`:
the bytes may be missing, parse to an array, parse to a non-array JSON
value, or make `JSON.parse` throw. -/
inductive Body where
  | missing
  | arr (items : List Notif)
  | notArr
  | malformed
deriving DecidableEq

/-- Outcome of the awaited `send_and_read_async` call of a list fetch: a
response with an HTTP status, an optional parsed `X-Poll-Interval` header
value, and a body shape — or a rejected promise (transport failure, or the
session being aborted by `disable`). -/
inductive FetchOutcome where
  | ok (status : Nat) (pollHeader : Option Nat) (body : Body)
  | err
deriving DecidableEq

/-- Synchronous prefix of `_fetchNotifications`, up to its `await`: when the
token or the HTTP session is missing the fetch degenerates to rescheduling;
otherwise the request goes in flight (second component `true`) and the rest
of the method runs later as `fetchResponse`. -/
def fetchStart (s : ExtState) : ExtState × Bool :=
  if s.token = "" ∨ s.httpSession = false then
    (scheduleFetch (getEffectiveInterval s) false s, false)
  else
    (s, true)

/-- Continuation of `_fetchNotifications` after its `await`, for each
outcome of the awaited call.

* On a resolved response the code first checks the teardown guard
  `if (!this._httpSession) return`.
* On HTTP 200 it stores the `X-Poll-Interval` hint
  (`parseInt(h, 10) || 60`, modelled as mapping a parsed 0 to 60), then
  parses the body: an array replaces the cache via `_updateNotifications`,
  a non-array is only logged, a throwing `JSON.parse` jumps to the catch
  block; in the non-throwing cases the next fetch is scheduled with
  `isRetry = false`.
* On HTTP 401 the count label is replaced by `"!"` and the next fetch is
  scheduled with `isRetry = true`; any other status also schedules with
  `isRetry = true`.
* A rejected promise runs the catch block, which reschedules with
  `isRetry = true` — without re-checking `this._httpSession`. -/
def fetchResponse (outcome : FetchOutcome) (s : ExtState) : ExtState :=
  match outcome with
  | .err => scheduleFetch (getEffectiveInterval s) true s
  | .ok status pollHeader body =>
    if s.httpSession = false then s
    else if status = 200 then
      let s1 :=
        match pollHeader with
        | some v => { s with githubInterval := if v = 0 then 60 else v }
        | none => s
      match body with
      | .arr items =>
        let s2 := updateNotifications items s1
        scheduleFetch (getEffectiveInterval s2) false s2
      | .notArr => scheduleFetch (getEffectiveInterval s1) false s1
      | .missing => scheduleFetch (getEffectiveInterval s1) false s1
      | .malformed => scheduleFetch (getEffectiveInterval s1) true s1
    else if status = 401 then
      let s1 := setLabel "!" s
      scheduleFetch (getEffectiveInterval s1) true s1
    else
      scheduleFetch (getEffectiveInterval s) true s

/-- The GLib timeout callback armed by `_scheduleFetch`: it invokes
`_fetchNotifications()` (whose synchronous prefix runs immediately), then
clears `this._timeoutId` and returns `GLib.SOURCE_REMOVE`, which destroys
the firing source `id`. -/
def timerFire (id : Nat) (s : ExtState) : ExtState :=
  let s1 := (fetchStart s).1
  let s2 := { s1 with timeoutId := none }
  { s2 with liveTimers := s2.liveTimers.erase id }

/-- `disable`: stop the polling loop, destroy the indicator widgets (the
label becomes unreachable), abort and drop the HTTP session, and clear the
cached list. -/
def disable (s : ExtState) : ExtState :=
  let s1 := stopLoop s
  { s1 with label := none, httpSession := false, notifications := [] }

/-- Outcome of the awaited call of a mark-read mutation. -/
inductive MarkOutcome where
  | ok (status : Nat)
  | err
deriving DecidableEq

/-- `_markAllRead`: entry guard on token/session, then (after the `await`)
the teardown guard and the status dispatch — 205 Reset Content, 200 OK and
204 No Content clear the cached list and set the count label to "0"; any
other status (and a rejected promise) only logs. -/
def markAllRead (outcome : MarkOutcome) (s : ExtState) : ExtState :=
  if s.token = "" ∨ s.httpSession = false then s
  else
    match outcome with
    | .err => s
    | .ok status =>
      if s.httpSession = false then s
      else if status = 205 ∨ status = 200 ∨ status = 204 then
        setLabel "0" { s with notifications := [] }
      else s

/-- The store mutation inside `_markThreadRead` on success:
`this._notifications.filter(n => n.id !== threadId)`. -/
def removeById (threadId : String) (l : List Notif) : List Notif :=
  l.filter (fun n => !(n.id == threadId))

/-- `_markThreadRead`: entry guards (token/session present, truthy thread
id), then after the `await` the teardown guard and the status dispatch —
on 205/200/204 the thread is filtered out of the cache and the count label
updated; otherwise the state is unchanged. -/
def markThreadRead (threadId : String) (outcome : MarkOutcome) (s : ExtState) : ExtState :=
  if s.token = "" ∨ s.httpSession = false then s
  else if threadId = "" then s
  else
    match outcome with
    | .err => s
    | .ok status =>
      if s.httpSession = false then s
      else if status = 205 ∨ status = 200 ∨ status = 204 then
        let l := removeById threadId s.notifications
        setLabel (toString l.length) { s with notifications := l }
      else s

/-- First-occurrence replacement on character lists: scan left to right and
replace the first occurrence of `pat` by `repl`, returning the input
unchanged when `pat` does not occur. -/
def listReplaceFirst : List Char → List Char → List Char → List Char
  | [], _, _ => []
  | c :: cs, pat, repl =>
    if List.isPrefixOf pat (c :: cs) then
      repl ++ (c :: cs).drop pat.length
    else
      c :: listReplaceFirst cs pat repl

/-- First-occurrence string replacement, the semantics of JavaScript
`String.prototype.replace` with a string pattern (the replacement strings
used by the extension contain no `$` patterns). -/
def replaceFirst (s pat repl : String) : String :=
  ⟨listReplaceFirst s.data pat.data repl.data⟩

/-- The test `/\/releases\/\d+$/.test(url)`: the string ends in
`/releases/` followed by one or more decimal digits. -/
def endsWithReleasesNum (s : String) : Bool :=
  let rcs := s.data.reverse
  let ds := rcs.takeWhile Char.isDigit
  decide (ds ≠ []) && List.isPrefixOf ("/releases/".data.reverse) (rcs.drop ds.length)

/-- The URL rewriting chain of `_resolveNotificationUrl`: strip the
API host (or the enterprise `/api/v3` prefix) together with the `/repos/`
segment, then normalise the first `/pulls/` and `/commits/` segments to
their singular browsable forms. -/
def convertSubjectUrl (domain url : String) : String :=
  let htmlUrl :=
    if domain = "github.com" then
      replaceFirst url "https://api.github.com/repos/" "https://github.com/"
    else
      replaceFirst url ("https://" ++ domain ++ "/api/v3/repos/")
        ("https://" ++ domain ++ "/")
  let htmlUrl2 := replaceFirst htmlUrl "/pulls/" "/pull/"
  replaceFirst htmlUrl2 "/commits/" "/commit/"

/-- `_resolveNotificationUrl(notif)`: convert a truthy subject URL to its
browser form, except that a converted URL still ending in
`/releases/<digits>` with a truthy repository name is sent to the
repository's releases page; with no truthy subject URL, fall back to the
repository page when the repository name is truthy, and to the global
notifications page otherwise. -/
def resolveNotificationUrl (domain : String) (notif : Notif) : String :=
  if jsTruthy notif.subjectUrl then
    let htmlUrl := convertSubjectUrl domain (notif.subjectUrl.getD "")
    if endsWithReleasesNum htmlUrl && jsTruthy notif.repoFullName then
      "https://" ++ domain ++ "/" ++ notif.repoFullName.getD "" ++ "/releases"
    else
      htmlUrl
  else if jsTruthy notif.repoFullName then
    "https://" ++ domain ++ "/" ++ notif.repoFullName.getD ""
  else
    "https://" ++ domain ++ "/notifications"

/-- The single-timer ownership invariant of the claim: at most one live
GLib timeout source exists and the stored handle names exactly it. -/
def timerInvariant (s : ExtState) : Bool :=
  match s.timeoutId with
  | some id => s.liveTimers == [id]
  | none => s.liveTimers == []

/-- A sample notification with no subject URL and no repository name. -/
def demoNotifA : Notif := { id := "a" }

/-- A sample release notification whose API subject URL carries the
numeric release id. -/
def demoRelease : Notif :=
  { id := "r1"
    subjectUrl := some "https://api.github.com/repos/o/r/releases/123"
    subjectType := some "Release"
    repoFullName := some "o/r" }

/-- An enabled state with default settings (refresh interval 60, server
interval 60), a valid token, no timer armed, and a list fetch about to be
in flight. -/
def defaultState : ExtState :=
  { notifications := []
    retryAttempts := 0
    githubInterval := 60
    refreshInterval := 60
    showAlert := false
    token := "t"
    httpSession := true
    label := some "0"
    timeoutId := none
    liveTimers := []
    nextTimerId := 1
    scheduledDelays := []
    alerts := [] }

/-- An enabled state whose token is empty (fresh install): the initial
`_fetchNotifications` call from `enable` has already tripped its guard and
armed timer 1, whose id is stored. -/
def noTokenState : ExtState :=
  { notifications := []
    retryAttempts := 0
    githubInterval := 60
    refreshInterval := 60
    showAlert := false
    token := ""
    httpSession := true
    label := some "0"
    timeoutId := some 1
    liveTimers := [1]
    nextTimerId := 2
    scheduledDelays := [60]
    alerts := [] }

/-- An enabled state with one cached notification and a list fetch in
flight (no timer armed while fetching). -/
def flightState : ExtState :=
  { notifications := [demoNotifA]
    retryAttempts := 0
    githubInterval := 60
    refreshInterval := 60
    showAlert := true
    token := "t"
    httpSession := true
    label := some "1"
    timeoutId := none
    liveTimers := []
    nextTimerId := 5
    scheduledDelays := []
    alerts := [] }

/-- The state right after `disable` ran while the fetch started from
`flightState` was still in flight. -/
def disabledInFlight : ExtState := disable flightState

/-- An enabled state with the user's refresh interval set to 300 seconds
(within the preferences range 60..86400), one cached notification, and a
list fetch in flight. -/
def c5State : ExtState :=
  { notifications := [demoNotifA]
    retryAttempts := 0
    githubInterval := 60
    refreshInterval := 300
    showAlert := true
    token := "t"
    httpSession := true
    label := some "1"
    timeoutId := none
    liveTimers := []
    nextTimerId := 1
    scheduledDelays := []
    alerts := [] }

/-- An enabled state in back-off (two consecutive failures so far) with a
list fetch in flight. -/
def c4State : ExtState :=
  { notifications := [demoNotifA]
    retryAttempts := 2
    githubInterval := 60
    refreshInterval := 60
    showAlert := true
    token := "t"
    httpSession := true
    label := some "1"
    timeoutId := none
    liveTimers := []
    nextTimerId := 1
    scheduledDelays := []
    alerts := [] }

/-- Three consecutive HTTP 500 responses starting from `defaultState`:
each response reschedules, the armed timer then fires and starts the next
fetch, whose response is again a 500. -/
def afterThree500s : ExtState :=
  let s1 := fetchResponse (.ok 500 none .missing) defaultState
  let s2 := fetchResponse (.ok 500 none .missing) (timerFire 1 s1)
  fetchResponse (.ok 500 none .missing) (timerFire 2 s2)

/-- `setLabel` never touches the cached list. -/
theorem setLabel_notifications (t : String) (s : ExtState) :
    (setLabel t s).notifications = s.notifications := rfl

/-- The back-off table, read through the clamped index, is monotone. -/
theorem retryTable_mono (a b : Nat) (hab : a ≤ b) (hb : b ≤ 6) :
    RETRY_INTERVALS.getD a 0 ≤ RETRY_INTERVALS.getD b 0 := by
  interval_cases b <;> interval_cases a <;> decide

/-- With a positive retry counter, the effective interval is the clamped
table entry capped below by the server interval. -/
theorem getEff_of_retry_pos (r u g : Nat) (hr : 0 < r) :
    getEffectiveIntervalFn r u g
      = max (RETRY_INTERVALS.getD (min (r - 1) 6) 0) g := by
  unfold getEffectiveIntervalFn
  rw [if_pos hr]
  norm_num [RETRY_INTERVALS]

/-- `_scheduleFetch` never emits alerts. -/
theorem scheduleFetch_alerts (d : Nat) (b : Bool) (s : ExtState) :
    (scheduleFetch d b s).alerts = s.alerts := rfl

/-- `_updateNotifications` appends exactly one alert when the count grew
and alerts are enabled, and none otherwise. -/
theorem updateNotifications_alerts (data : List Notif) (s : ExtState) :
    (updateNotifications data s).alerts
      = if s.notifications.length < data.length ∧ s.showAlert = true
        then s.alerts ++ [(data.length, notificationBody data.length)]
        else s.alerts := by
  by_cases h : s.notifications.length < data.length ∧ s.showAlert = true
  · simp only [updateNotifications, sendDesktopNotification, setLabel]
    rw [if_pos h, if_pos h]
  · simp only [updateNotifications, sendDesktopNotification, setLabel]
    rw [if_neg h, if_neg h]

/-- Claim C6: for every retryCount ≥ 1 and all server/user intervals, the
computed next delay is at least the server interval, is non-decreasing as
the retry counter grows, and from the table's last entry on (retryCount ≥ 7)
is the constant max 3600 serverInterval. -/
theorem backoff_ge_server_monotone_capped (r1 r2 srv usr : Nat)
    (h1 : 1 ≤ r1) (h12 : r1 ≤ r2) :
    srv ≤ getEffectiveIntervalFn r1 usr srv ∧
    getEffectiveIntervalFn r1 usr srv ≤ getEffectiveIntervalFn r2 usr srv ∧
    (7 ≤ r1 → getEffectiveIntervalFn r1 usr srv = max 3600 srv) := by
  have e1 := getEff_of_retry_pos r1 usr srv (by omega)
  have e2 := getEff_of_retry_pos r2 usr srv (by omega)
  refine ⟨?_, ?_, ?_⟩
  · rw [e1]; exact le_max_right _ _
  · rw [e1, e2]
    exact max_le_max (retryTable_mono _ _ (by omega) (Nat.min_le_right _ _)) le_rfl
  · intro h7
    rw [e1]
    have hmin : min (r1 - 1) 6 = 6 := by omega
    rw [hmin]
    rfl

/-- Witness for C6 at retry counters 1 ≤ 8, server interval 70, user
interval 60. -/
theorem backoff_ge_server_monotone_capped_witness :
    (1 ≤ 1 ∧ 1 ≤ 8) ∧
    (70 ≤ getEffectiveIntervalFn 1 60 70 ∧
     getEffectiveIntervalFn 1 60 70 ≤ getEffectiveIntervalFn 8 60 70 ∧
     (7 ≤ 1 → getEffectiveIntervalFn 1 60 70 = max 3600 70)) :=
  ⟨⟨le_refl 1, by decide⟩,
    backoff_ge_server_monotone_capped 1 8 70 60 (le_refl 1) (by decide)⟩

/-- Claim C9: removing an id that is absent from the list is a no-op that
leaves the count unchanged, and a repeated removal changes nothing. -/
theorem removeById_absent_noop (l : List Notif) (tid : String)
    (habsent : l.all (fun n => !(n.id == tid)) = true) :
    removeById tid l = l ∧
    (removeById tid l).length = l.length ∧
    removeById tid (removeById tid l) = removeById tid l := by
  have h1 : removeById tid l = l :=
    List.filter_eq_self.mpr (List.all_eq_true.mp habsent)
  refine ⟨h1, by rw [h1], by rw [h1, h1]⟩

/-- Witness for C9: the second removal of the already-removed id "a" is a
no-op with no count change. -/
theorem removeById_absent_noop_witness :
    ((removeById "a" [demoNotifA]).all (fun n => !(n.id == "a")) = true) ∧
    (removeById "a" (removeById "a" [demoNotifA]) = removeById "a" [demoNotifA] ∧
     (removeById "a" (removeById "a" [demoNotifA])).length
       = (removeById "a" [demoNotifA]).length ∧
     removeById "a" (removeById "a" (removeById "a" [demoNotifA]))
       = removeById "a" (removeById "a" [demoNotifA])) :=
  ⟨by decide, removeById_absent_noop (removeById "a" [demoNotifA]) "a" (by decide)⟩

/-- Claim C8: mark-all-read treats exactly 200, 204 and 205 as success;
success clears the cached list to count 0 regardless of its prior
contents, and any other status leaves it unchanged. -/
theorem markAllRead_success_set (status : Nat) (s : ExtState)
    (htok : s.token ≠ "") (hsess : s.httpSession = true) :
    ((status = 200 ∨ status = 204 ∨ status = 205) →
      (markAllRead (.ok status) s).notifications = []) ∧
    ((status ≠ 200 ∧ status ≠ 204 ∧ status ≠ 205) →
      (markAllRead (.ok status) s).notifications = s.notifications) := by
  constructor
  · rintro (rfl | rfl | rfl) <;>
      simp [markAllRead, hsess, htok, setLabel_notifications]
  · rintro ⟨n1, n2, n3⟩
    simp [markAllRead, hsess, htok, n1, n2, n3]

/-- Witness for C8 at status 204 on a state with one cached item. -/
theorem markAllRead_success_set_witness :
    (c4State.token ≠ "" ∧ c4State.httpSession = true) ∧
    (((204 : Nat) = 200 ∨ (204 : Nat) = 204 ∨ (204 : Nat) = 205) →
      (markAllRead (.ok 204) c4State).notifications = []) ∧
    (((204 : Nat) ≠ 200 ∧ (204 : Nat) ≠ 204 ∧ (204 : Nat) ≠ 205) →
      (markAllRead (.ok 204) c4State).notifications = c4State.notifications) :=
  ⟨⟨by decide, by decide⟩,
    (markAllRead_success_set 204 c4State (by decide) (by decide)).1,
    (markAllRead_success_set 204 c4State (by decide) (by decide)).2⟩

/-- Claim C7: a successful list fetch emits exactly one alert carrying the
new total count iff the count grew and alerts are enabled, with singular
phrasing exactly for count 1 and plural phrasing otherwise. -/
theorem fetch_success_alert_delta (s : ExtState) (items : List Notif)
    (poll : Option Nat) (hsess : s.httpSession = true) :
    ((s.notifications.length < items.length ∧ s.showAlert = true) →
      (fetchResponse (.ok 200 poll (.arr items)) s).alerts
        = s.alerts ++ [(items.length, notificationBody items.length)]) ∧
    ((items.length ≤ s.notifications.length ∨ s.showAlert = false) →
      (fetchResponse (.ok 200 poll (.arr items)) s).alerts = s.alerts) ∧
    (items.length = 1 →
      notificationBody items.length = "You have 1 unread notification") ∧
    (items.length ≠ 1 →
      notificationBody items.length
        = "You have " ++ toString items.length ++ " unread notifications") := by
  have key : (fetchResponse (.ok 200 poll (.arr items)) s).alerts
      = if s.notifications.length < items.length ∧ s.showAlert = true
        then s.alerts ++ [(items.length, notificationBody items.length)]
        else s.alerts := by
    cases poll <;>
      simp [fetchResponse, hsess, scheduleFetch_alerts, updateNotifications_alerts,
        stopLoop]
  refine ⟨?_, ?_, ?_, ?_⟩
  · intro h; rw [key, if_pos h]
  · intro h
    rw [key, if_neg]
    rintro ⟨hlt, hsa⟩
    rcases h with h | h
    · omega
    · rw [hsa] at h; cases h
  · intro h; simp [notificationBody, h]
  · intro h; simp [notificationBody, h]

/-- Witness for C7: a fetch of one item over an empty cache with alerts
disabled in `defaultState`. -/
theorem fetch_success_alert_delta_witness :
    (defaultState.httpSession = true) ∧
    ((defaultState.notifications.length < [demoNotifA].length ∧
        defaultState.showAlert = true) →
      (fetchResponse (.ok 200 none (.arr [demoNotifA])) defaultState).alerts
        = defaultState.alerts
            ++ [([demoNotifA].length, notificationBody [demoNotifA].length)]) ∧
    (([demoNotifA].length ≤ defaultState.notifications.length ∨
        defaultState.showAlert = false) →
      (fetchResponse (.ok 200 none (.arr [demoNotifA])) defaultState).alerts
        = defaultState.alerts) ∧
    ([demoNotifA].length = 1 →
      notificationBody [demoNotifA].length = "You have 1 unread notification") ∧
    ([demoNotifA].length ≠ 1 →
      notificationBody [demoNotifA].length
        = "You have " ++ toString [demoNotifA].length ++ " unread notifications") :=
  ⟨by decide, fetch_success_alert_delta defaultState [demoNotifA] none (by decide)⟩

/-- Claim C4, counterexample: an HTTP 200 response whose body is valid
JSON but not an array leaves the list alone yet RESETS the retry counter
to 0 — it is not incremented as the claim states (here from 2 to 3). -/
theorem nonArray_resets_retry_counter :
    (fetchResponse (.ok 200 none .notArr) c4State).notifications
      = c4State.notifications ∧
    (fetchResponse (.ok 200 none .notArr) c4State).retryAttempts = 0 ∧
    (fetchResponse (.ok 200 none .notArr) c4State).retryAttempts
      ≠ c4State.retryAttempts + 1 := by
  decide

/-- Claim C4 as amended: a 200 response with a valid-JSON non-array body
is discarded without mutating the list or alerting, the engine keeps
running, but the attempt counts as a success for back-off purposes: the
retry counter is reset to 0. -/
theorem nonArray_counts_as_success (s : ExtState) (poll : Option Nat)
    (hsess : s.httpSession = true) :
    (fetchResponse (.ok 200 poll .notArr) s).notifications = s.notifications ∧
    (fetchResponse (.ok 200 poll .notArr) s).retryAttempts = 0 ∧
    (fetchResponse (.ok 200 poll .notArr) s).alerts = s.alerts := by
  cases poll <;> simp [fetchResponse, hsess, scheduleFetch, stopLoop]

/-- Witness for the amended C4 on the concrete back-off state. -/
theorem nonArray_counts_as_success_witness :
    (c4State.httpSession = true) ∧
    ((fetchResponse (.ok 200 none .notArr) c4State).notifications
       = c4State.notifications ∧
     (fetchResponse (.ok 200 none .notArr) c4State).retryAttempts = 0 ∧
     (fetchResponse (.ok 200 none .notArr) c4State).alerts = c4State.alerts) :=
  ⟨by decide, nonArray_counts_as_success c4State none (by decide)⟩

/-- Claim C10: `_resolveNotificationUrl` is total with the claimed
fallbacks — with no truthy subject URL it yields the repository page when
the repository name is truthy and the global notifications page otherwise,
and a converted URL still ending in `/releases/<digits>` with a truthy
repository name yields the repository's releases page. -/
theorem resolveNotificationUrl_total_fallbacks (domain : String) (notif : Notif) :
    (jsTruthy notif.subjectUrl = false →
      resolveNotificationUrl domain notif
        = (if jsTruthy notif.repoFullName then
             "https://" ++ domain ++ "/" ++ notif.repoFullName.getD ""
           else
             "https://" ++ domain ++ "/notifications")) ∧
    (jsTruthy notif.subjectUrl = true →
     endsWithReleasesNum (convertSubjectUrl domain (notif.subjectUrl.getD "")) = true →
     jsTruthy notif.repoFullName = true →
      resolveNotificationUrl domain notif
        = "https://" ++ domain ++ "/" ++ notif.repoFullName.getD "" ++ "/releases") := by
  constructor
  · intro h
    rw [resolveNotificationUrl, if_neg (by simp [h])]
  · intro h1 h2 h3
    rw [resolveNotificationUrl, if_pos h1]
    simp only [h2, h3, Bool.and_self, if_pos]

/-- Witness for C10: the field-free notification falls back, and the
sample release notification is routed to the repository releases page. -/
theorem resolveNotificationUrl_total_fallbacks_witness :
    ((jsTruthy demoNotifA.subjectUrl = false →
       resolveNotificationUrl "github.com" demoNotifA
         = (if jsTruthy demoNotifA.repoFullName then
              "https://" ++ "github.com" ++ "/" ++ demoNotifA.repoFullName.getD ""
            else
              "https://" ++ "github.com" ++ "/notifications")) ∧
     (jsTruthy demoNotifA.subjectUrl = true →
      endsWithReleasesNum
          (convertSubjectUrl "github.com" (demoNotifA.subjectUrl.getD "")) = true →
      jsTruthy demoNotifA.repoFullName = true →
       resolveNotificationUrl "github.com" demoNotifA
         = "https://" ++ "github.com" ++ "/" ++ demoNotifA.repoFullName.getD ""
             ++ "/releases")) ∧
    (jsTruthy demoRelease.subjectUrl = true ∧
     endsWithReleasesNum
         (convertSubjectUrl "github.com" (demoRelease.subjectUrl.getD "")) = true ∧
     jsTruthy demoRelease.repoFullName = true ∧
     resolveNotificationUrl "github.com" demoRelease
       = "https://github.com/o/r/releases") :=
  ⟨resolveNotificationUrl_total_fallbacks "github.com" demoNotifA,
   by refine ⟨by decide, by decide, by decide, ?_⟩
      exact (resolveNotificationUrl_total_fallbacks "github.com" demoRelease).2
        (by decide) (by decide) (by decide)⟩

/-- Claim C1, code divergence: after `disable` ran mid-flight, a response
that RESOLVES is fully discarded by the teardown guard; but a response
that THROWS (e.g. because `disable` aborted the session) runs the
guard-free catch block, which arms a new GLib timer (id 5), stores it and
bumps the retry counter — observable effects after teardown. -/
theorem teardown_throw_schedules_timer :
    fetchResponse (.ok 200 (some 60) (.arr [demoNotifA])) disabledInFlight
      = disabledInFlight ∧
    (fetchResponse .err disabledInFlight).liveTimers = [5] ∧
    (fetchResponse .err disabledInFlight).timeoutId = some 5 ∧
    (fetchResponse .err disabledInFlight).retryAttempts = 1 := by
  decide

/-- Claim C2, code divergence: with an empty token, firing the armed timer
runs `_fetchNotifications` synchronously, which arms a replacement timer
(id 2); the callback then overwrites the stored handle with null, leaving
a live timer that is no longer stored (invariant broken), and one further
`_scheduleFetch` yields two live timers at once. -/
theorem timer_callback_orphans_new_timer :
    timerInvariant noTokenState = true ∧
    (timerFire 1 noTokenState).liveTimers = [2] ∧
    (timerFire 1 noTokenState).timeoutId = none ∧
    timerInvariant (timerFire 1 noTokenState) = false ∧
    (scheduleFetch 5 false (timerFire 1 noTokenState)).liveTimers = [3, 2] := by
  decide

/-- Claim C3, code divergence: three consecutive HTTP 500 responses from
the default state schedule delays 60, 60, 120 — not the claimed 60, 120,
240 — because each delay is computed before `_scheduleFetch` increments
the retry counter. -/
theorem three_500s_delay_progression :
    afterThree500s.scheduledDelays = [60, 60, 120] ∧
    afterThree500s.scheduledDelays ≠ [60, 120, 240] := by
  decide

/-- Claim C5, code divergence: on HTTP 401 with retry counter 0 the store
is unchanged, the counter becomes 1 and the label shows the error marker,
but with the user's refresh interval at 300 the scheduled delay is 300 =
max(userInterval, serverInterval), not the claimed max(60, serverInterval)
= 60 — again because the delay is computed before the increment. -/
theorem http401_delay_uses_user_interval :
    (fetchResponse (.ok 401 none .missing) c5State).notifications
      = c5State.notifications ∧
    (fetchResponse (.ok 401 none .missing) c5State).retryAttempts = 1 ∧
    (fetchResponse (.ok 401 none .missing) c5State).label = some "!" ∧
    (fetchResponse (.ok 401 none .missing) c5State).scheduledDelays = [300] ∧
    (300 : Nat) ≠ max 60 c5State.githubInterval := by
  decide

end GithubNotifications
